import Mathlib

/-!
Verification of the query-serving path of `src/rag_service.py`, a RAG
retrieval gateway.  The Python module is shallowly embedded: module-level
globals become explicit state records, downstream calls (fastembed, pymilvus)
become oracles supplied as parameters that either succeed with a value or
raise (modelled by `Except String`), and each HTTP error raised via
`HTTPException(status_code, detail)` becomes an `HTTPErr` value.
-/

namespace RagService

/-- An `HTTPException(status_code=..., detail=...)` raised by the service. -/
structure HTTPErr where
  status : Nat
  detail : String
  deriving DecidableEq, Repr

/-- A pymilvus `Collection` object as the manager stores it.  `cid` is the
object's identity (which construction produced it); `loaded` records whether
`_col.load()` has completed successfully on it. -/
structure Collection where
  cid : Nat
  loaded : Bool
  deriving DecidableEq, Repr

/-- The module-level mutable state guarded by `_milvus_lock`
(`_connected : bool`, `_col : Optional[Collection]`), lines 31-33, extended
with ghost call counters (the spec's "injected downstream call counter") for
the three downstream operations performed by `get_collection`:
`connections.connect`, `Collection(...)` construction, and `_col.load()`. -/
structure MilvusState where
  connected : Bool
  col : Option Collection
  connectCalls : Nat
  constructCalls : Nat
  loadCalls : Nat
  deriving DecidableEq, Repr

/-- The cold-process state: not connected, no collection, no downstream call
performed yet. -/
def initState : MilvusState :=
  { connected := false, col := none, connectCalls := 0, constructCalls := 0, loadCalls := 0 }

/-- Outcomes of the three downstream operations for one `get_collection`
call: `connectResult` is `connections.connect(...)`, `constructResult` is
`Collection(MILVUS_COLLECTION)` (returning the identity of the fresh object),
`loadResult` is `_col.load()`.  `Except.error e` models the call raising an
exception whose string form is `e`. -/
structure MilvusEnv where
  connectResult : Except String Unit
  constructResult : Except String Nat
  loadResult : Except String Unit

/-- The environment in which every downstream operation succeeds; fresh
collection objects get identity 0. -/
def allOk : MilvusEnv :=
  { connectResult := .ok (), constructResult := .ok 0, loadResult := .ok () }

/-- Shallow embedding of `get_collection` (lines 47-56).  The whole body runs
under `with _milvus_lock:`, so under concurrency each call's body executes
atomically; the model therefore treats one call as one atomic state
transition.  Control flow follows the source line by line:

  - `if not _connected: connections.connect(...); _connected = True` —
    the flag is set only after a successful connect, so a raising connect
    leaves `connected` false;
  - `if _col is None: _col = Collection(MILVUS_COLLECTION); _col.load()` —
    note the global `_col` is assigned BEFORE `load()` runs, so a raising
    `load()` leaves `_col` set to a collection whose `loaded` is false;
  - `return _col`.

An `Except.error` return models the exception propagating to the caller. -/
def get_collection (env : MilvusEnv) (s : MilvusState) :
    Except String Collection × MilvusState :=
  if s.connected then
    match s.col with
    | some c => (.ok c, s)
    | none =>
      let s2 := { s with constructCalls := s.constructCalls + 1 }
      match env.constructResult with
      | .error e => (.error e, s2)
      | .ok cid =>
        let s3 := { s2 with col := some ⟨cid, false⟩,
                            loadCalls := s2.loadCalls + 1 }
        match env.loadResult with
        | .error e => (.error e, s3)
        | .ok () => (.ok ⟨cid, true⟩, { s3 with col := some ⟨cid, true⟩ })
  else
    let s1 := { s with connectCalls := s.connectCalls + 1 }
    match env.connectResult with
    | .error e => (.error e, s1)
    | .ok () =>
      let s1' := { s1 with connected := true }
      match s1'.col with
      | some c => (.ok c, s1')
      | none =>
        let s2 := { s1' with constructCalls := s1'.constructCalls + 1 }
        match env.constructResult with
        | .error e => (.error e, s2)
        | .ok cid =>
          let s3 := { s2 with col := some ⟨cid, false⟩,
                              loadCalls := s2.loadCalls + 1 }
          match env.loadResult with
          | .error e => (.error e, s3)
          | .ok () => (.ok ⟨cid, true⟩, { s3 with col := some ⟨cid, true⟩ })

/-- A sequence of `get_collection` calls.  Because each call's body holds
`_milvus_lock` for its entire duration, any concurrent execution of the
calls is equivalent to running their bodies in some serial order; this
function is that serialization. -/
def run_calls : List MilvusEnv → MilvusState → List (Except String Collection) × MilvusState
  | [], s => ([], s)
  | env :: envs, s =>
    let p := get_collection env s
    let q := run_calls envs p.2
    (p.1 :: q.1, q.2)

/-- Once the state is ready (connected, collection cached), `get_collection`
returns the cached handle and performs no downstream call, whatever the
environment. -/
theorem get_collection_ready (env : MilvusEnv) (s : MilvusState) (c : Collection)
    (hconn : s.connected = true) (hcol : s.col = some c) :
    get_collection env s = (.ok c, s) := by
  simp [get_collection, hconn, hcol]

/-- Running any list of calls from a ready state returns the cached handle
every time and leaves the state untouched. -/
theorem run_calls_ready (envs : List MilvusEnv) (s : MilvusState) (c : Collection)
    (hconn : s.connected = true) (hcol : s.col = some c) :
    run_calls envs s = (List.replicate envs.length (.ok c), s) := by
  induction envs with
  | nil => simp [run_calls]
  | cons env envs ih =>
    simp [run_calls, get_collection_ready env s c hconn hcol, ih, List.replicate]

/-- An environment in which connect and construction succeed but
`_col.load()` raises. -/
def loadFailEnv : MilvusEnv :=
  { connectResult := .ok (), constructResult := .ok 0,
    loadResult := .error "load timeout" }

/-- C1: the claim fails on the code at the load step.  From a cold state,
a call in which `_col.load()` raises surfaces the error, but the global
`_col` was assigned BEFORE the load ran, so the state IS advanced past the
failing step: the next call (all downstream operations now healthy) finds
`_col is None` false, performs no construction and no load, and returns the
stored handle whose load never completed (`loaded = false`). -/
theorem get_collection_load_failure_star :
    (get_collection loadFailEnv initState).1 = .error "load timeout" ∧
    (get_collection loadFailEnv initState).2.col = some ⟨0, false⟩ ∧
    (get_collection allOk (get_collection loadFailEnv initState).2).1 = .ok ⟨0, false⟩ ∧
    (get_collection allOk (get_collection loadFailEnv initState).2).2.loadCalls =
      (get_collection loadFailEnv initState).2.loadCalls ∧
    (get_collection allOk (get_collection loadFailEnv initState).2).2.constructCalls =
      (get_collection loadFailEnv initState).2.constructCalls :=
  ⟨rfl, rfl, rfl, rfl, rfl⟩

/-- C2: with every downstream operation healthy, any number n of callers
against a cold process — serialized by `_milvus_lock`, which each call holds
for its whole body — trigger exactly one connect, one collection
construction and one load when n ≥ 1 (and none when n = 0), and every call
returns the same ready handle. -/
theorem get_collection_single_connect_load (n : Nat) :
    (run_calls (List.replicate n allOk) initState).1 =
      List.replicate n (.ok ⟨0, true⟩) ∧
    (run_calls (List.replicate n allOk) initState).2.connectCalls = min n 1 ∧
    (run_calls (List.replicate n allOk) initState).2.constructCalls = min n 1 ∧
    (run_calls (List.replicate n allOk) initState).2.loadCalls = min n 1 := by
  cases n with
  | zero => exact ⟨rfl, rfl, rfl, rfl⟩
  | succ m =>
    have h1 : get_collection allOk initState =
        (.ok ⟨0, true⟩, ⟨true, some ⟨0, true⟩, 1, 1, 1⟩) := rfl
    have h2 := run_calls_ready (List.replicate m allOk)
      ⟨true, some ⟨0, true⟩, 1, 1, 1⟩ ⟨0, true⟩ rfl rfl
    refine ⟨?_, ?_, ?_, ?_⟩ <;>
      simp [run_calls, h1, h2, List.replicate, Nat.min_def]

/-- The whitespace set `str.strip()` removes from the ends of a string: the
29 code points for which Python's `str.isspace` holds — horizontal tab
through carriage return (U+0009-U+000D), the four information separators
U+001C-U+001F, space, next line U+0085, no-break space U+00A0, Ogham space
mark U+1680, the U+2000-U+200A spaces, line separator U+2028, paragraph
separator U+2029, narrow no-break space U+202F, medium mathematical space
U+205F and ideographic space U+3000. -/
def pyIsSpace (c : Char) : Bool :=
  c = ' ' || c = '\t' || c = '\n' || c = '\x0b' || c = '\x0c' || c = '\x0d' ||
  c = '\x1c' || c = '\x1d' || c = '\x1e' || c = '\x1f' ||
  c = '\x85' || c = '\xa0' || c = '\u1680' ||
  c = '\u2000' || c = '\u2001' || c = '\u2002' || c = '\u2003' ||
  c = '\u2004' || c = '\u2005' || c = '\u2006' || c = '\u2007' ||
  c = '\u2008' || c = '\u2009' || c = '\u200a' ||
  c = '\u2028' || c = '\u2029' || c = '\u202f' || c = '\u205f' || c = '\u3000'

/-- Python `s.strip()` on a string viewed as its sequence of characters:
drop leading and trailing whitespace. -/
def pyStrip (s : List Char) : List Char :=
  ((s.dropWhile pyIsSpace).reverse.dropWhile pyIsSpace).reverse

/-- The process-wide configuration resolved at import time (lines 12-16,
each value already `.strip()`ed) together with the outcome of the one-time
embedder construction (lines 23-28): `embedderLoaded` is `embedder is not
None`, `embedErr` is `EMBED_ERR`. -/
structure Config where
  milvusUri : String
  milvusToken : String
  milvusCollection : String
  apiKey : String
  embedderLoaded : Bool
  embedErr : Option String

/-- Shallow embedding of `require_env` (lines 35-41).  Python string
truthiness: an environment value is missing iff it is the empty string. -/
def require_env (cfg : Config) : Except HTTPErr Unit :=
  if cfg.milvusUri = "" ∨ cfg.milvusToken = "" then
    .error ⟨500, "Missing MILVUS_URI or MILVUS_TOKEN"⟩
  else if cfg.embedderLoaded = false then
    .error ⟨500, "Embedding model failed to load: " ++
      (match cfg.embedErr with
       | none => "unknown"
       | some e => if e = "" then "unknown" else e)⟩
  else if cfg.apiKey = "" then
    .error ⟨500, "Server missing RAG_API_KEY"⟩
  else
    .ok ()

/-- Shallow embedding of `auth` (lines 43-45).  The header
`x_api_key : Optional[str]` is `none` when absent; `RAG_API_KEY` is always a
string, so an absent header never equals it. -/
def auth (x_api_key : Option String) (cfg : Config) : Except HTTPErr Unit :=
  if x_api_key ≠ some cfg.apiKey then .error ⟨401, "Unauthorized"⟩ else .ok ()

/-- The request body `SearchReq` (lines 58-60): pydantic parses `text` as a
string (embedded as its character sequence) and `top_k` as an integer with
default 12. -/
structure SearchReq where
  text : List Char
  top_k : Int

/-- A request body that omits `top_k`: pydantic fills in the model default
`top_k: int = 12`. -/
def SearchReq.ofText (t : List Char) : SearchReq := ⟨t, 12⟩

/-- Line 97: `top_k = max(1, min(int(req.top_k), 30))`. -/
def clamp_top_k (k : Int) : Int := max 1 (min k 30)

/-- One raw hit as produced by `col.search`: its `score` attribute and the
four requested `output_fields` of its `entity`.  Milvus scores are floats;
they are embedded as rationals (every IEEE float value is one). -/
structure RawHit where
  score : Rat
  doc_id : String
  title : String
  chunk_index : Int
  text : String
  deriving DecidableEq, Repr

/-- One entry of the response's `hits` list (lines 116-122). -/
structure Hit where
  score : Rat
  doc_id : String
  title : String
  chunk_index : Int
  text : String
  deriving DecidableEq, Repr

/-- The dictionary built for one raw hit (lines 116-122): `float(h.score)`
and `int(h.entity.get("chunk_index"))` coerce values already numeric in the
embedding, so they are the identity here; the other three fields are read
from the entity unchanged. -/
def mkHit (h : RawHit) : Hit :=
  ⟨h.score, h.doc_id, h.title, h.chunk_index, h.text⟩

/-- The downstream behaviour visible to one `/search` request:
`embed q` is `next(embedder.embed([q])).tolist()` on the stripped query,
`milvus` drives the steps inside `get_collection`, and
`searchCall col vec limit` is `col.search(data=[vec], ..., limit=limit, ...)`
returning the raw hit list `res[0]`.  `Except.error e` models the call
raising an exception whose string form is `e`. -/
structure Env where
  embed : List Char → Except String (List Rat)
  milvus : MilvusEnv
  searchCall : Collection → List Rat → Int → Except String (List RawHit)

/-- What one `/search` request produced: the HTTP result (a hit list or a
raised `HTTPException`), ghost counters for how many times the embedder and
`col.search` were invoked, the Milvus manager state after the request, and
the `limit` value passed to `col.search` (`none` when that call was never
reached). -/
structure SearchOutcome where
  result : Except HTTPErr (List Hit)
  embedCalls : Nat
  milvusState : MilvusState
  searchCalls : Nat
  limitUsed : Option Int
  deriving Repr

/-- Shallow embedding of the `/search` handler (lines 86-127), step by step:
`auth(x_api_key)`; `require_env()`; `q = (req.text or "").strip()` (for a
string field, `req.text or ""` equals `req.text` whenever it matters: `""`
is mapped to `""`); 400 when `q` is empty; 413 when `len(q) > 2000`;
clamp `top_k`; embed inside a `try` that wraps any exception as
`"Embedding failed: <e>"`; then `get_collection()` and `col.search(...)`
inside a `try` that wraps any exception as `"Milvus search failed: <e>"`;
finally the hits list is the raw results mapped through `mkHit` in order. -/
def search (cfg : Config) (env : Env) (req : SearchReq)
    (x_api_key : Option String) (s : MilvusState) : SearchOutcome :=
  match auth x_api_key cfg with
  | .error e => ⟨.error e, 0, s, 0, none⟩
  | .ok () =>
  match require_env cfg with
  | .error e => ⟨.error e, 0, s, 0, none⟩
  | .ok () =>
  if pyStrip req.text = [] then ⟨.error ⟨400, "Missing text"⟩, 0, s, 0, none⟩
  else if 2000 < (pyStrip req.text).length then
    ⟨.error ⟨413, "Query too long"⟩, 0, s, 0, none⟩
  else
  match env.embed (pyStrip req.text) with
  | .error e => ⟨.error ⟨500, "Embedding failed: " ++ e⟩, 1, s, 0, none⟩
  | .ok vec =>
  match get_collection env.milvus s with
  | (.error e, s') => ⟨.error ⟨500, "Milvus search failed: " ++ e⟩, 1, s', 0, none⟩
  | (.ok col, s') =>
  match env.searchCall col vec (clamp_top_k req.top_k) with
  | .error e =>
    ⟨.error ⟨500, "Milvus search failed: " ++ e⟩, 1, s', 1, some (clamp_top_k req.top_k)⟩
  | .ok raw => ⟨.ok (raw.map mkHit), 1, s', 1, some (clamp_top_k req.top_k)⟩

/-- Whenever the `/search` handler reaches `col.search`, the `limit` it
passes is exactly the clamped `top_k` of the request; otherwise no limit is
ever passed downstream. -/
theorem search_limitUsed (cfg : Config) (env : Env) (req : SearchReq)
    (key : Option String) (s : MilvusState) :
    (search cfg env req key s).limitUsed = none ∨
    (search cfg env req key s).limitUsed = some (clamp_top_k req.top_k) := by
  unfold search
  repeat' split
  all_goals first | exact Or.inl rfl | exact Or.inr rfl

/-- C3: for every integer `top_k` supplied by the client, the clamped value
computed on line 97 lies in `[1, 30]` — values below 1 become 1, values
above 30 become 30, in-range values pass through unchanged — and the limit
the handler passes to the nearest-neighbor search, when it passes one, is
exactly that clamped value; the clamp is a total function, so no input is
rejected. -/
theorem top_k_clamped (k : Int) (cfg : Config) (env : Env) (req : SearchReq)
    (key : Option String) (s : MilvusState) :
    (1 ≤ clamp_top_k k ∧ clamp_top_k k ≤ 30) ∧
    clamp_top_k k = (if k < 1 then 1 else if 30 < k then 30 else k) ∧
    ((search cfg env req key s).limitUsed = none ∨
      (search cfg env req key s).limitUsed = some (clamp_top_k req.top_k)) := by
  refine ⟨⟨le_max_left 1 _, max_le (by norm_num) (min_le_right k 30)⟩, ?_, ?_⟩
  · unfold clamp_top_k
    split <;> [skip; split] <;> omega
  · exact search_limitUsed cfg env req key s

/-- Configuration where every required value is present and the embedder
loaded, for concrete instantiations. -/
def cfgOk : Config :=
  ⟨"https://milvus.example", "token-1", "rag_chunks", "secret", true, none⟩

/-- A fully healthy downstream stub: the embedder returns a fixed vector and
the index returns no hits. -/
def envStub : Env :=
  { embed := fun _ => .ok [1, 0],
    milvus := allOk,
    searchCall := fun _ _ _ => .ok [] }

/-- A mismatched key makes `auth` raise before anything else runs. -/
theorem search_wrong_key (cfg : Config) (env : Env) (req : SearchReq)
    (key : Option String) (s : MilvusState) (hkey : key ≠ some cfg.apiKey) :
    search cfg env req key s = ⟨.error ⟨401, "Unauthorized"⟩, 0, s, 0, none⟩ := by
  unfold search auth
  simp [hkey]

/-- C4: a request whose presented `X-Api-Key` differs from the configured
key is rejected with 401 Unauthorized before anything else happens: the
embedder and the index are never invoked and the manager state is untouched,
whatever the configuration, body or downstream behaviour — in particular a
wrong key with, say, empty text yields 401, not 400 or 500, because `auth`
runs before `require_env`, which runs before text validation. -/
theorem wrong_key_unauthorized (cfg : Config) (env : Env) (req : SearchReq)
    (key : Option String) (s : MilvusState) (hkey : key ≠ some cfg.apiKey) :
    search cfg env req key s = ⟨.error ⟨401, "Unauthorized"⟩, 0, s, 0, none⟩ :=
  search_wrong_key cfg env req key s hkey

/-- Configuration with a missing index endpoint and a failed embedder, used
to show that 401 wins over the 500 misconfiguration answer. -/
def cfgBroken : Config := ⟨"", "", "rag_chunks", "secret", false, some "boom"⟩

/-- C4 witness: wrong key, empty text and a broken configuration still give
exactly 401 with zero embedder and index invocations. -/
theorem wrong_key_unauthorized_witness :
    some "wrong" ≠ some cfgBroken.apiKey ∧
    search cfgBroken envStub (SearchReq.ofText []) (some "wrong") initState =
      ⟨.error ⟨401, "Unauthorized"⟩, 0, initState, 0, none⟩ :=
  ⟨by decide, wrong_key_unauthorized cfgBroken envStub (SearchReq.ofText [])
    (some "wrong") initState (by decide)⟩

/-- C5: an authenticated, configured request whose text is empty or
whitespace-only after trimming gets 400 BadRequest, with the embedder never
invoked, the index never invoked and the manager state untouched. -/
theorem empty_text_bad_request (cfg : Config) (env : Env) (req : SearchReq)
    (key : Option String) (s : MilvusState)
    (hkey : key = some cfg.apiKey) (hcfg : require_env cfg = .ok ())
    (hq : pyStrip req.text = []) :
    search cfg env req key s = ⟨.error ⟨400, "Missing text"⟩, 0, s, 0, none⟩ := by
  unfold search auth
  simp [hkey, hcfg, hq]

/-- C5 witness: a whitespace-only body — mixing space, tab, no-break space
U+00A0, em space U+2003 and file separator U+001C — under the healthy
configuration gets exactly 400 with zero embedder and index invocations. -/
theorem empty_text_bad_request_witness :
    pyStrip " \t\u00a0\u2003\u001c ".data = [] ∧
    search cfgOk envStub ⟨" \t\u00a0\u2003\u001c ".data, 5⟩ (some "secret") initState =
      ⟨.error ⟨400, "Missing text"⟩, 0, initState, 0, none⟩ :=
  ⟨by decide, empty_text_bad_request cfgOk envStub ⟨" \t\u00a0\u2003\u001c ".data, 5⟩
    (some "secret") initState rfl rfl (by decide)⟩

/-- Dropping leading whitespace does nothing to a run of letters `a`. -/
theorem dropWhile_replicate_a (n : Nat) :
    List.dropWhile pyIsSpace (List.replicate n 'a') = List.replicate n 'a' := by
  cases n with
  | zero => rfl
  | succ m =>
    rw [List.replicate_succ, List.dropWhile_cons]
    simp [pyIsSpace]

/-- Stripping a run of letters `a` does nothing. -/
theorem pyStrip_replicate_a (n : Nat) :
    pyStrip (List.replicate n 'a') = List.replicate n 'a' := by
  unfold pyStrip
  rw [dropWhile_replicate_a, List.reverse_replicate, dropWhile_replicate_a,
    List.reverse_replicate]

/-- C6: an authenticated, configured request whose trimmed text is longer
than 2000 characters gets 413 PayloadTooLarge, with the embedder never
invoked, the index never invoked and the manager state untouched; the
ceiling is measured on the trimmed text. -/
theorem long_text_payload_too_large (cfg : Config) (env : Env) (req : SearchReq)
    (key : Option String) (s : MilvusState)
    (hkey : key = some cfg.apiKey) (hcfg : require_env cfg = .ok ())
    (hlen : 2000 < (pyStrip req.text).length) :
    search cfg env req key s = ⟨.error ⟨413, "Query too long"⟩, 0, s, 0, none⟩ := by
  have hne : pyStrip req.text ≠ [] := by
    intro h
    rw [h] at hlen
    simp at hlen
  unfold search auth
  simp [hkey, hcfg, hne, hlen]

/-- C6 witness: a 2001-character query under the healthy configuration gets
exactly 413 with zero embedder and index invocations. -/
theorem long_text_payload_too_large_witness :
    2000 < (pyStrip (List.replicate 2001 'a')).length ∧
    search cfgOk envStub ⟨List.replicate 2001 'a', 5⟩ (some "secret") initState =
      ⟨.error ⟨413, "Query too long"⟩, 0, initState, 0, none⟩ :=
  have hlen : 2000 < (pyStrip (List.replicate 2001 'a')).length := by
    rw [pyStrip_replicate_a, List.length_replicate]
    norm_num
  ⟨hlen, long_text_payload_too_large cfgOk envStub ⟨List.replicate 2001 'a', 5⟩
    (some "secret") initState rfl rfl hlen⟩

/-- C7: on a successful `/search`, the response body is exactly the raw
result list returned by the index mapped through `mkHit`: one hit per raw
result, in the index's order with no re-sorting (position i of the response
comes from position i of the raw list), each hit carrying the raw score, the
raw `chunk_index`, and the `doc_id`, `title` and `text` metadata fields of
its raw result. -/
theorem hits_shaped_in_order (cfg : Config) (env : Env) (req : SearchReq)
    (key : Option String) (s : MilvusState) (vec : List Rat)
    (col : Collection) (s' : MilvusState) (raw : List RawHit)
    (hkey : key = some cfg.apiKey) (hcfg : require_env cfg = .ok ())
    (hne : pyStrip req.text ≠ []) (hlen : (pyStrip req.text).length ≤ 2000)
    (hemb : env.embed (pyStrip req.text) = .ok vec)
    (hcol : get_collection env.milvus s = (.ok col, s'))
    (hraw : env.searchCall col vec (clamp_top_k req.top_k) = .ok raw) :
    (search cfg env req key s).result = .ok (raw.map mkHit) ∧
    (raw.map mkHit).length = raw.length ∧
    ∀ i : Nat, (raw.map mkHit)[i]? = Option.map mkHit raw[i]? := by
  refine ⟨?_, List.length_map raw mkHit, fun i => List.getElem?_map mkHit raw i⟩
  unfold search auth
  simp [hkey, hcfg, hne, hemb, hcol, hraw, Nat.not_lt.mpr hlen]

/-- The spec's three stub hits, in the stub index's order. -/
def rawHits3 : List RawHit :=
  [⟨9 / 10, "doc-1", "Intro to retrieval", 0, "Retrieval finds chunks."⟩,
   ⟨4 / 5, "doc-2", "Vector search", 3, "Vectors encode meaning."⟩,
   ⟨1 / 2, "doc-3", "Ranking", 7, "Scores order the hits."⟩]

/-- Healthy downstream stub whose index returns the three spec hits. -/
def envHits3 : Env :=
  { embed := fun _ => .ok [1, 0],
    milvus := allOk,
    searchCall := fun _ _ _ => .ok rawHits3 }

/-- C7 witness: key `"secret"`, body text `"what is retrieval?"` with
`top_k = 5`, a stub embedder and a stub index returning three hits — the
response holds exactly those three hits, in the stub's order, with all
fields taken from the stubs. -/
theorem hits_shaped_in_order_witness :
    envHits3.searchCall ⟨0, true⟩ [1, 0] (clamp_top_k 5) = .ok rawHits3 ∧
    (search cfgOk envHits3 ⟨"what is retrieval?".data, 5⟩ (some "secret")
        initState).result = .ok (rawHits3.map mkHit) :=
  ⟨rfl,
    (hits_shaped_in_order cfgOk envHits3 ⟨"what is retrieval?".data, 5⟩
      (some "secret") initState [1, 0] ⟨0, true⟩
      ⟨true, some ⟨0, true⟩, 1, 1, 1⟩ rawHits3
      rfl rfl (by decide) (by decide) rfl rfl rfl).1⟩

/-- The two 500 detail strings of the `/search` handler can never collide,
whatever the downstream exception texts: one starts with `E`, the other with
`M`. -/
theorem embed_vs_milvus_message (e e' : String) :
    "Embedding failed: " ++ e ≠ "Milvus search failed: " ++ e' := by
  intro h
  have h2 := congrArg String.data h
  rw [String.data_append, String.data_append,
    show "Embedding failed: ".data = 'E' :: "mbedding failed: ".data from rfl,
    show "Milvus search failed: ".data = 'M' :: "ilvus search failed: ".data
      from rfl] at h2
  simp at h2

/-- One `get_collection` call performs each downstream operation at most
once. -/
theorem get_collection_calls_le (env : MilvusEnv) (s : MilvusState) :
    (get_collection env s).2.connectCalls ≤ s.connectCalls + 1 ∧
    (get_collection env s).2.constructCalls ≤ s.constructCalls + 1 ∧
    (get_collection env s).2.loadCalls ≤ s.loadCalls + 1 := by
  obtain ⟨conn, col, cc, csc, lc⟩ := s
  unfold get_collection
  cases col <;> repeat' split
  all_goals simp

/-- One `/search` request calls the embedder at most once, `col.search` at
most once, and drives at most one connect, one construction and one load. -/
theorem search_calls_le (cfg : Config) (env : Env) (req : SearchReq)
    (key : Option String) (s : MilvusState) :
    (search cfg env req key s).embedCalls ≤ 1 ∧
    (search cfg env req key s).searchCalls ≤ 1 ∧
    (search cfg env req key s).milvusState.connectCalls ≤ s.connectCalls + 1 ∧
    (search cfg env req key s).milvusState.constructCalls ≤ s.constructCalls + 1 ∧
    (search cfg env req key s).milvusState.loadCalls ≤ s.loadCalls + 1 := by
  have hg := get_collection_calls_le env.milvus s
  unfold search
  repeat' split
  all_goals simp_all

/-- C8: a raising embedding call yields exactly a 500 whose detail is
`"Embedding failed: <e>"` (index untouched); a raising connect, collection
load or `col.search` call yields exactly a 500 whose detail is
`"Milvus search failed: <e>"`; the two wrappings can never produce the same
detail string, and both statuses (500) differ from the 401 and 400 answers;
and no failure is retried internally: each downstream operation runs at most
once per request. -/
theorem search_failures_wrapped :
    (∀ (cfg : Config) (env : Env) (req : SearchReq) (key : Option String)
        (s : MilvusState) (e : String),
      key = some cfg.apiKey → require_env cfg = .ok () →
      pyStrip req.text ≠ [] → (pyStrip req.text).length ≤ 2000 →
      env.embed (pyStrip req.text) = .error e →
      search cfg env req key s =
        ⟨.error ⟨500, "Embedding failed: " ++ e⟩, 1, s, 0, none⟩) ∧
    (∀ (cfg : Config) (env : Env) (req : SearchReq) (key : Option String)
        (s : MilvusState) (vec : List Rat) (e : String) (s' : MilvusState),
      key = some cfg.apiKey → require_env cfg = .ok () →
      pyStrip req.text ≠ [] → (pyStrip req.text).length ≤ 2000 →
      env.embed (pyStrip req.text) = .ok vec →
      get_collection env.milvus s = (.error e, s') →
      search cfg env req key s =
        ⟨.error ⟨500, "Milvus search failed: " ++ e⟩, 1, s', 0, none⟩) ∧
    (∀ (cfg : Config) (env : Env) (req : SearchReq) (key : Option String)
        (s : MilvusState) (vec : List Rat) (col : Collection)
        (s' : MilvusState) (e : String),
      key = some cfg.apiKey → require_env cfg = .ok () →
      pyStrip req.text ≠ [] → (pyStrip req.text).length ≤ 2000 →
      env.embed (pyStrip req.text) = .ok vec →
      get_collection env.milvus s = (.ok col, s') →
      env.searchCall col vec (clamp_top_k req.top_k) = .error e →
      search cfg env req key s =
        ⟨.error ⟨500, "Milvus search failed: " ++ e⟩, 1, s', 1,
          some (clamp_top_k req.top_k)⟩) ∧
    (∀ e e' : String,
      ("Embedding failed: " ++ e ≠ "Milvus search failed: " ++ e') ∧
      (HTTPErr.mk 500 ("Embedding failed: " ++ e)).status ≠ 401 ∧
      (HTTPErr.mk 500 ("Embedding failed: " ++ e)).status ≠ 400 ∧
      (HTTPErr.mk 500 ("Milvus search failed: " ++ e')).status ≠ 401 ∧
      (HTTPErr.mk 500 ("Milvus search failed: " ++ e')).status ≠ 400) ∧
    (∀ (cfg : Config) (env : Env) (req : SearchReq) (key : Option String)
        (s : MilvusState),
      (search cfg env req key s).embedCalls ≤ 1 ∧
      (search cfg env req key s).searchCalls ≤ 1 ∧
      (search cfg env req key s).milvusState.connectCalls ≤ s.connectCalls + 1 ∧
      (search cfg env req key s).milvusState.constructCalls ≤ s.constructCalls + 1 ∧
      (search cfg env req key s).milvusState.loadCalls ≤ s.loadCalls + 1) := by
  refine ⟨?_, ?_, ?_, ?_, fun cfg env req key s => search_calls_le cfg env req key s⟩
  · intro cfg env req key s e hkey hcfg hne hlen hemb
    unfold search auth
    simp [hkey, hcfg, hne, hemb, Nat.not_lt.mpr hlen]
  · intro cfg env req key s vec e s' hkey hcfg hne hlen hemb hcol
    unfold search auth
    simp [hkey, hcfg, hne, hemb, hcol, Nat.not_lt.mpr hlen]
  · intro cfg env req key s vec col s' e hkey hcfg hne hlen hemb hcol hraw
    unfold search auth
    simp [hkey, hcfg, hne, hemb, hcol, hraw, Nat.not_lt.mpr hlen]
  · intro e e'
    exact ⟨embed_vs_milvus_message e e', by simp, by simp, by simp, by simp⟩

/-- Downstream stub whose embedding call raises. -/
def envEmbedFail : Env :=
  { embed := fun _ => .error "boom",
    milvus := allOk,
    searchCall := fun _ _ _ => .ok [] }

/-- C8 witness: with a raising embedder stub, a valid request gets exactly
500 with detail `"Embedding failed: boom"`, the index untouched. -/
theorem search_failures_wrapped_witness :
    envEmbedFail.embed (pyStrip "hi".data) = .error "boom" ∧
    search cfgOk envEmbedFail ⟨"hi".data, 5⟩ (some "secret") initState =
      ⟨.error ⟨500, "Embedding failed: " ++ "boom"⟩, 1, initState, 0, none⟩ :=
  ⟨rfl, search_failures_wrapped.1 cfgOk envEmbedFail ⟨"hi".data, 5⟩
    (some "secret") initState "boom" rfl rfl (by decide) (by decide) rfl⟩

/-- With a blank configured `RAG_API_KEY`, `require_env` always raises a
500: either the Milvus values are missing, or the embedder failed to load,
or the final check `if not RAG_API_KEY` fires. -/
theorem require_env_blank_key (cfg : Config) (h : cfg.apiKey = "") :
    ∃ d, require_env cfg = .error ⟨500, d⟩ := by
  unfold require_env
  split
  · exact ⟨_, rfl⟩
  · split
    · exact ⟨_, rfl⟩
    · exact ⟨"Server missing RAG_API_KEY", by simp [h]⟩

/-- A passing `auth` followed by a raising `require_env` stops the request
with that error before any downstream work. -/
theorem search_require_env_error (cfg : Config) (env : Env) (req : SearchReq)
    (key : Option String) (s : MilvusState) (e : HTTPErr)
    (hkey : key = some cfg.apiKey) (hcfg : require_env cfg = .error e) :
    search cfg env req key s = ⟨.error e, 0, s, 0, none⟩ := by
  unfold search auth
  simp [hkey, hcfg]

/-- C9: a blank configured `RAG_API_KEY` never behaves as allow-all: no
request reaches the embedder or the index (zero invocations, manager state
untouched); a presented key different from the empty string is rejected 401
by `auth`, and a presented key equal to the empty string passes `auth` but
is stopped with a 500 by `require_env`. -/
theorem blank_key_never_allows (cfg : Config) (env : Env) (req : SearchReq)
    (key : Option String) (s : MilvusState) (hblank : cfg.apiKey = "") :
    (search cfg env req key s).embedCalls = 0 ∧
    (search cfg env req key s).searchCalls = 0 ∧
    (search cfg env req key s).milvusState = s ∧
    (key ≠ some "" →
      (search cfg env req key s).result = .error ⟨401, "Unauthorized"⟩) ∧
    (key = some "" →
      ∃ d, (search cfg env req key s).result = .error ⟨500, d⟩) := by
  by_cases hk : key = some ""
  · obtain ⟨d, hd⟩ := require_env_blank_key cfg hblank
    rw [search_require_env_error cfg env req key s _ (by rw [hblank, hk]) hd]
    exact ⟨rfl, rfl, rfl, fun hne => absurd hk hne, fun _ => ⟨d, rfl⟩⟩
  · rw [search_wrong_key cfg env req key s (by rw [hblank]; exact hk)]
    exact ⟨rfl, rfl, rfl, fun _ => rfl, fun h => absurd h hk⟩

/-- Configuration whose shared API key resolved to the empty string. -/
def cfgBlankKey : Config :=
  ⟨"https://milvus.example", "token-1", "rag_chunks", "", true, none⟩

/-- C9 witness: under a blank configured key, a request presenting `"x"`
invokes nothing and gets 401. -/
theorem blank_key_never_allows_witness :
    cfgBlankKey.apiKey = "" ∧
    (search cfgBlankKey envStub (SearchReq.ofText "hi".data) (some "x")
        initState).embedCalls = 0 ∧
    (search cfgBlankKey envStub (SearchReq.ofText "hi".data) (some "x")
        initState).searchCalls = 0 ∧
    ((some "x" : Option String) ≠ some "" →
      (search cfgBlankKey envStub (SearchReq.ofText "hi".data) (some "x")
        initState).result = .error ⟨401, "Unauthorized"⟩) :=
  have h := blank_key_never_allows cfgBlankKey envStub
    (SearchReq.ofText "hi".data) (some "x") initState rfl
  ⟨rfl, h.1, h.2.1, h.2.2.2.1⟩

/-- C10: a request body that omits `top_k` gets the pydantic model default
12, which lies inside the clamping range and passes through the clamp
unchanged, so whenever the nearest-neighbor search is reached its limit is
exactly 12. -/
theorem top_k_default_is_twelve (t : List Char) (cfg : Config) (env : Env)
    (key : Option String) (s : MilvusState) :
    (SearchReq.ofText t).top_k = 12 ∧
    clamp_top_k (SearchReq.ofText t).top_k = 12 ∧
    ((search cfg env (SearchReq.ofText t) key s).limitUsed = none ∨
      (search cfg env (SearchReq.ofText t) key s).limitUsed = some 12) := by
  have h12 : clamp_top_k (SearchReq.ofText t).top_k = 12 := by
    show clamp_top_k 12 = 12
    decide
  refine ⟨rfl, h12, ?_⟩
  have h := search_limitUsed cfg env (SearchReq.ofText t) key s
  rw [h12] at h
  exact h

end RagService
